import Mathlib

/-
Verification of the request-handling core of the speech service in
src/tts/server.py: the synthesis handler (`generate_audio`), the
transcription handler (`transcribe_audio`), staging of the uploaded bytes
in a temporary file, transcript assembly, and the error-to-HTTP mapping.

The filesystem is modelled as an association list from paths (Nat) to byte
sequences.  `tempfile.NamedTemporaryFile(delete=False)` is modelled by
`stage`, which writes the content under a fresh path; `os.remove` is
modelled by `osRemove`, which fails with "FileNotFoundError" when the path
is absent, exactly as the Python call raises.  The two model collaborators
(Silero TTS and Whisper STT) are external; the handlers take their
outcomes as function parameters, mirroring the opaque-collaborator
contract.  An exception raised by a collaborator is an `Except.error`
carrying the exception message; the `except` blocks of both handlers map
any such error to an HTTP 500 whose detail is `str(e)`.
-/

namespace TTSServer

/-- Byte sequences: contents of uploads and of files on disk. -/
abbrev ByteSeq := List Nat

/-- The filesystem: an association list from paths to file contents. -/
abbrev FS := List (Nat × ByteSeq)

/-- Whether a file exists at path `p` (model of `os.path.exists`). -/
def pathExists (fs : FS) (p : Nat) : Bool :=
  fs.any (fun e => e.1 == p)

/-- A path not yet used by any file: one past the largest existing path.
Models the unique name chosen by `tempfile.NamedTemporaryFile`. -/
def freshPath (fs : FS) : Nat :=
  fs.foldl (fun m e => max m e.1) 0 + 1

/-- Model of lines 68-71 of server.py: create a uniquely named temporary
file, write the uploaded bytes to it, and return the new filesystem
together with the file's path (`tmp.name`). -/
def stage (fs : FS) (content : ByteSeq) : FS × Nat :=
  let p := freshPath fs
  ((p, content) :: fs, p)

/-- Reading the file at path `p`, `none` when no such file exists. -/
def readFile (fs : FS) (p : Nat) : Option ByteSeq :=
  (fs.find? (fun e => e.1 == p)).map (fun e => e.2)

/-- Model of `os.remove`: deletes the file at `p`, raising
`FileNotFoundError` when the path does not exist (os.remove is not
idempotent). -/
def osRemove (fs : FS) (p : Nat) : Except String FS :=
  if pathExists fs p then .ok (fs.filter (fun e => !(e.1 == p)))
  else .error "FileNotFoundError"

/-- The request model of lines 34-37 of server.py, with the pydantic
defaults `speaker = "kseniya"` and `sample_rate = 48000`. -/
structure TTSRequest where
  text : String
  speaker : String
  sample_rate : Int

/-- Pydantic body parsing for `TTSRequest`: a field that is absent from
the JSON body takes its declared default, a supplied field is passed
through unchanged. -/
def TTSRequest.ofBody (text : String) (speaker? : Option String)
    (sample_rate? : Option Int) : TTSRequest :=
  { text := text
    speaker := speaker?.getD "kseniya"
    sample_rate := sample_rate?.getD 48000 }

/-- One-dimensional audio sample array, as returned by `apply_tts`. -/
abbrev AudioSamples := List Int

/-- Outcome of a handler: a 200 response with a body, or an
`HTTPException(status_code, detail)`. -/
inductive HandlerResult (α : Type) where
  | ok : α → HandlerResult α
  | httpError : Nat → String → HandlerResult α

/-- The HTTP status of a handler outcome (FastAPI returns 200 for a
normally returned body). -/
def statusOf {α : Type} : HandlerResult α → Nat
  | .ok _ => 200
  | .httpError s _ => s

/-- The `detail` field of the error body, when the outcome is an error. -/
def detailOf {α : Type} : HandlerResult α → Option String
  | .ok _ => none
  | .httpError _ d => some d

/-- Model of `generate_audio` (lines 39-62 of server.py): invoke the TTS
collaborator with the request's text, speaker and sample rate; on success
encode the samples with `sf.write` at the request's sample rate and return
the bytes; any exception from either step is caught and re-raised as
`HTTPException(500, str(e))`. -/
def generate_audio (req : TTSRequest)
    (apply_tts : String → String → Int → Except String AudioSamples)
    (sf_write : AudioSamples → Int → Except String ByteSeq) :
    HandlerResult ByteSeq :=
  match apply_tts req.text req.speaker req.sample_rate with
  | .error e => .httpError 500 e
  | .ok audio =>
    match sf_write audio req.sample_rate with
    | .error e => .httpError 500 e
    | .ok bytes => .ok bytes

/-- A transcription segment as produced by the STT collaborator; only its
text is consumed by the handler. -/
structure TranscriptSegment where
  text : String

/-- The JSON body returned by a successful transcription:
`{"text": ..., "language": ...}`. -/
structure TranscriptionResult where
  text : String
  language : String

/-- Model of Python's `str.strip()`: drop whitespace characters from both
ends of the string. -/
def pyStrip (s : String) : String :=
  ⟨((s.data.dropWhile Char.isWhitespace).reverse.dropWhile Char.isWhitespace).reverse⟩

/-- Lines 75-77 and the `.strip()` of line 82 of server.py: start from the
empty string, append each segment's text followed by a single space, and
strip the result. -/
def assemble (segments : List TranscriptSegment) : String :=
  pyStrip (segments.foldl (fun acc s => acc ++ s.text ++ " ") "")

/-- The assembler as the spec describes it: the concatenation of the
segment texts each followed by a single space, with leading and trailing
whitespace trimmed from the final result. -/
def assembleSpec (segments : List TranscriptSegment) : String :=
  pyStrip (String.join (segments.map (fun s => s.text ++ " ")))

/-- Model of `transcribe_audio` (lines 64-86 of server.py): stage the
uploaded bytes in a temporary file, invoke the STT collaborator on its
path, assemble the segments, remove the temporary file, and return the
result; any exception is caught and re-raised as
`HTTPException(500, str(e))`, without any further cleanup. -/
def transcribe_audio (fs : FS) (content : ByteSeq)
    (stt : Nat → Except String (List TranscriptSegment × String)) :
    HandlerResult TranscriptionResult × FS :=
  let staged := stage fs content
  let fs1 := staged.1
  let tmp_path := staged.2
  match stt tmp_path with
  | .error e => (.httpError 500 e, fs1)
  | .ok (segments, language) =>
    match osRemove fs1 tmp_path with
    | .error e => (.httpError 500 e, fs1)
    | .ok fs2 => (.ok ⟨assemble segments, language⟩, fs2)

/-- A deterministic WAV-container byte image: RIFF magic, a rate byte and
the PCM-style payload. -/
def encodeWav (samples : AudioSamples) (rate : Int) : ByteSeq :=
  [82, 73, 70, 70] ++ [rate.toNat % 256] ++ samples.map (fun s => s.toNat % 256)

/-- Modelled from the spec: the AudioEncoder component's failure contract
("signals an EncodingError if the sample array is empty or the sample rate
is non-positive", spec 4.1) is implemented inside the external `soundfile`
library; src/tts/server.py contains only its caller (`sf.write`, line 55). -/
def AudioEncoder.encode (samples : AudioSamples) (rate : Int) :
    Except String ByteSeq :=
  if samples.isEmpty ∨ rate ≤ 0 then .error "EncodingError"
  else .ok (encodeWav samples rate)

/-- Helper: filtering out every entry at path `p` leaves no file at `p`. -/
theorem pathExists_filter (l : FS) (p : Nat) :
    pathExists (List.filter (fun e => !(e.1 == p)) l) p = false := by
  simp [pathExists, List.mem_filter]

/-- Helper: the character data of the assembler's fold, for any
accumulator. -/
theorem assemble_foldl_data (l : List TranscriptSegment) (acc : String) :
    (List.foldl (fun a s => a ++ s.text ++ " ") acc l).data
      = acc.data ++ (l.map (fun s => s.text.data ++ [' '])).flatten := by
  induction l generalizing acc with
  | nil => simp
  | cons s l ih => simp [ih, String.data_append, List.append_assoc]

/-- C6: for every finite sequence of transcript segments, the assembler of
lines 75-82 produces the concatenation of the segment texts each followed
by a single space, trimmed of leading/trailing whitespace; the empty
sequence yields the empty string, and ["hello", "world"] yields
"hello world". -/
theorem c6_assemble :
    (∀ segments : List TranscriptSegment, assemble segments = assembleSpec segments) ∧
    assemble [] = "" ∧
    assemble [⟨"hello"⟩, ⟨"world"⟩] = "hello world" := by
  refine ⟨fun segments => ?_, rfl, by decide⟩
  unfold assemble assembleSpec
  refine congrArg pyStrip (String.ext ?_)
  rw [assemble_foldl_data]
  have h : (String.data ∘ fun s : TranscriptSegment => s.text ++ " ")
      = fun s : TranscriptSegment => s.text.data ++ [' '] := by
    funext s
    simp [String.data_append]
  simp only [String.data_join, List.map_map, h]
  simp

/-- C7: a synthesis request that omits `speaker` or `sample_rate` gets the
defaults "kseniya" and 48000 before the model is invoked, and supplied
values pass through unchanged: the handler behaves identically on an
omitting request and on one that spells the defaults out. -/
theorem c7_defaults :
    ∀ (t s : String) (r : Int)
      (apply_tts : String → String → Int → Except String AudioSamples)
      (sf_write : AudioSamples → Int → Except String ByteSeq),
      (TTSRequest.ofBody t none none).speaker = "kseniya" ∧
      (TTSRequest.ofBody t none none).sample_rate = 48000 ∧
      (TTSRequest.ofBody t (some s) (some r)).speaker = s ∧
      (TTSRequest.ofBody t (some s) (some r)).sample_rate = r ∧
      generate_audio (TTSRequest.ofBody t none none) apply_tts sf_write
        = generate_audio ⟨t, "kseniya", 48000⟩ apply_tts sf_write ∧
      generate_audio (TTSRequest.ofBody t (some s) (some r)) apply_tts sf_write
        = generate_audio ⟨t, s, r⟩ apply_tts sf_write := by
  intro t s r apply_tts sf_write
  exact ⟨rfl, rfl, rfl, rfl, rfl, rfl⟩

/-- C8: staging a byte sequence and immediately reading the returned path
yields exactly the staged bytes. -/
theorem c8_stage_read :
    ∀ (fs : FS) (B : ByteSeq), readFile (stage fs B).1 (stage fs B).2 = some B := by
  intro fs B
  simp [stage, readFile, List.find?]

/-- C4: the audio encoder signals an EncodingError whenever the sample
array is empty or the sample rate is non-positive. -/
theorem c4_encode_error (samples : AudioSamples) (rate : Int)
    (h : samples = [] ∨ rate ≤ 0) :
    AudioEncoder.encode samples rate = .error "EncodingError" := by
  unfold AudioEncoder.encode
  rcases h with h | h
  · simp [h]
  · simp [h]

/-- C4 witness: the encoder rejects the empty sample array at rate 48000. -/
theorem c4_encode_error_witness :
    (([] : AudioSamples) = [] ∨ (48000 : Int) ≤ 0) ∧
    AudioEncoder.encode [] 48000 = .error "EncodingError" :=
  ⟨Or.inl rfl, c4_encode_error [] 48000 (Or.inl rfl)⟩

/-- C5: every failure inside either handler — TTS collaborator failure,
encoding failure, STT collaborator failure — is mapped to the single HTTP
status 500, and the `detail` field carries exactly the original error
message; no error kind gets a different status code. -/
theorem c5_error_mapping :
    ∀ (req : TTSRequest) (fs : FS) (content : ByteSeq) (e : String)
      (samples : AudioSamples)
      (sf_write : AudioSamples → Int → Except String ByteSeq),
      generate_audio req (fun _ _ _ => .error e) sf_write = .httpError 500 e ∧
      generate_audio req (fun _ _ _ => .ok samples) (fun _ _ => .error e)
        = .httpError 500 e ∧
      (transcribe_audio fs content (fun _ => .error e)).1 = .httpError 500 e ∧
      statusOf (generate_audio req (fun _ _ _ => .error e) sf_write) = 500 ∧
      detailOf (generate_audio req (fun _ _ _ => .error e) sf_write) = some e ∧
      statusOf (transcribe_audio fs content (fun _ => .error e)).1 = 500 ∧
      detailOf (transcribe_audio fs content (fun _ => .error e)).1 = some e := by
  intro req fs content e samples sf_write
  exact ⟨rfl, rfl, rfl, rfl, rfl, rfl, rfl⟩

/-- C9: when the STT collaborator reports no segments at all, the
transcription handler still succeeds with status 200, an empty `text` and
the collaborator's detected language. -/
theorem c9_empty_segments :
    ∀ (fs : FS) (content : ByteSeq) (lang : String),
      (transcribe_audio fs content (fun _ => .ok ([], lang))).1 = .ok ⟨"", lang⟩ ∧
      statusOf (transcribe_audio fs content (fun _ => .ok ([], lang))).1 = 200 := by
  intro fs content lang
  have hex : pathExists (stage fs content).1 (stage fs content).2 = true := by
    simp [stage, pathExists]
  constructor
  · simp [transcribe_audio, osRemove, hex, stage, pathExists, assemble, pyStrip]
  · simp [transcribe_audio, osRemove, hex, stage, pathExists, statusOf]

/-- C10: the synthesis handler performs no non-emptiness validation on
`text`: a request with empty text is accepted at the boundary, the TTS
collaborator is invoked with the empty string, and a rejection by the
collaborator surfaces as a generic 500 carrying the collaborator's
message. -/
theorem c10_empty_text (sp : String) (r : Int) (e : String)
    (apply_tts : String → String → Int → Except String AudioSamples)
    (sf_write : AudioSamples → Int → Except String ByteSeq)
    (h : apply_tts "" sp r = .error e) :
    (TTSRequest.ofBody "" (some sp) (some r)).text = "" ∧
    generate_audio (TTSRequest.ofBody "" (some sp) (some r)) apply_tts sf_write
      = .httpError 500 e := by
  refine ⟨rfl, ?_⟩
  unfold generate_audio
  simp [TTSRequest.ofBody, h]

/-- C10 witness: a collaborator that rejects empty text produces a 500
with its message. -/
theorem c10_empty_text_witness :
    generate_audio (TTSRequest.ofBody "" (some "kseniya") (some 48000))
      (fun _ _ _ => .error "text must not be empty") (fun _ _ => .ok [])
      = .httpError 500 "text must not be empty" :=
  (c10_empty_text "kseniya" 48000 "text must not be empty"
    (fun _ _ _ => .error "text must not be empty") (fun _ _ => .ok []) rfl).2

/-- C1 counterexample: a request whose STT invocation fails leaves the
staged temporary file in place — the handler returns the 500 error while
the file staged at path 1 still exists, refuting deletion on every exit
path. -/
theorem c1_counterexample :
    (transcribe_audio [] [7] (fun _ => .error "model failure")).1
      = .httpError 500 "model failure" ∧
    pathExists (transcribe_audio [] [7] (fun _ => .error "model failure")).2 1
      = true :=
  ⟨rfl, rfl⟩

/-- C1 (amended): the staged temporary file is deleted before the handler
returns on the success path only; when the STT invocation fails, the
handler returns the 500 error without deleting the staged file, which
survives the request. -/
theorem c1_cleanup :
    ∀ (fs : FS) (content : ByteSeq) (segments : List TranscriptSegment)
      (lang e : String),
      pathExists (transcribe_audio fs content (fun _ => .ok (segments, lang))).2
        (freshPath fs) = false ∧
      pathExists (transcribe_audio fs content (fun _ => .error e)).2
        (freshPath fs) = true := by
  intro fs content segments lang e
  have hex : pathExists ((freshPath fs, content) :: fs) (freshPath fs) = true := by
    simp [pathExists]
  constructor
  · simp [transcribe_audio, stage, osRemove, hex, pathExists, List.mem_filter]
  · simp [transcribe_audio, stage, pathExists]

/-- C2 counterexample: an empty upload body is not rejected before
staging — the handler stages it, and after the request fails the staged
artifact (holding the empty bytes) still exists at path 1, carrying the
collaborator's message rather than a validation error. -/
theorem c2_counterexample :
    readFile (transcribe_audio [] [] (fun _ => .error "Invalid WAV")).2 1
      = some [] ∧
    (transcribe_audio [] [] (fun _ => .error "Invalid WAV")).1
      = .httpError 500 "Invalid WAV" :=
  ⟨rfl, rfl⟩

/-- C2 (amended): the handler performs no emptiness check on the upload
body: an empty body is staged like any other, the STT collaborator is
invoked on the staged path, a collaborator failure surfaces as a 500 with
the collaborator's message while the staged artifact outlives the request,
and a collaborator success yields a normal 200 result. -/
theorem c2_no_empty_validation :
    ∀ (fs : FS) (e lang : String) (segments : List TranscriptSegment),
      readFile (transcribe_audio fs [] (fun _ => .error e)).2 (freshPath fs)
        = some [] ∧
      (transcribe_audio fs [] (fun _ => .error e)).1 = .httpError 500 e ∧
      (transcribe_audio fs [] (fun _ => .ok (segments, lang))).1
        = .ok ⟨assemble segments, lang⟩ := by
  intro fs e lang segments
  have hex : pathExists ((freshPath fs, ([] : ByteSeq)) :: fs) (freshPath fs) = true := by
    simp [pathExists]
  refine ⟨?_, rfl, ?_⟩
  · simp [transcribe_audio, stage, readFile, List.find?]
  · simp [transcribe_audio, stage, osRemove, hex]

/-- C3 counterexample: releasing a staged artifact is not idempotent —
after a first `os.remove` succeeds, a second `os.remove` of the same path
raises FileNotFoundError. -/
theorem c3_counterexample :
    osRemove [(1, [42])] 1 = .ok [] ∧
    osRemove [] 1 = .error "FileNotFoundError" :=
  ⟨rfl, rfl⟩

/-- C3 (amended): after release the artifact no longer exists at its path,
but release is not idempotent: invoking it a second time, once the
artifact is gone, raises FileNotFoundError. -/
theorem c3_release (fs : FS) (p : Nat) (h : pathExists fs p = true) :
    ∃ fs2, osRemove fs p = .ok fs2 ∧ pathExists fs2 p = false ∧
      osRemove fs2 p = .error "FileNotFoundError" := by
  refine ⟨fs.filter (fun e => !(e.1 == p)), ?_, pathExists_filter fs p, ?_⟩
  · simp [osRemove, h]
  · simp [osRemove, pathExists_filter fs p]

/-- C3 witness: releasing the single staged file at path 1 removes it, and
the second release raises. -/
theorem c3_release_witness :
    pathExists [(1, ([42] : ByteSeq))] 1 = true ∧
    (∃ fs2, osRemove [(1, [42])] 1 = .ok fs2 ∧ pathExists fs2 1 = false ∧
      osRemove fs2 1 = .error "FileNotFoundError") :=
  ⟨rfl, c3_release [(1, [42])] 1 rfl⟩

end TTSServer
